import Mathlib

/-!
Shallow embedding of the FinTwin financial dashboard (src/app.py) and proofs
about its period-state reconciliation and derived-metrics logic.

Monetary values are modelled as rationals (the Python floats of the source);
the session-state dictionary is modelled as the structure `AppState`;
worksheets of the spreadsheet-backed Record Store are modelled as lists of
string rows (header first), matching `ws.get_all_values()`.
-/

namespace FinDash

/-- A row of the expenses / deductions editors: `{"Category": ..., "Amount": ...}`. -/
structure LineItem where
  category : String
  amount : ℚ
deriving Repr, DecidableEq

/-- The session-state fields of src/app.py that the reconciliation logic touches. -/
structure AppState where
  basic_salary : ℚ
  allowances : ℚ
  variable_income : ℚ
  current_savings : ℚ
  epf_rate : ℤ
  expenses : List LineItem
  deductions_list : List LineItem
  active_currency : String
  loaded_salary : ℚ
  loaded_allowances : ℚ
  loaded_var : ℚ
  loaded_savings : ℚ
  loaded_epf : ℤ
  loaded_month : String
  loaded_year : ℤ
  last_viewed_month : String
  last_viewed_year : ℤ
deriving Repr, DecidableEq

/-- Default expense rows of `get_default_state` (src/app.py lines 141-148). -/
def default_expenses : List LineItem :=
  [⟨"Housing (Rent/Loan)", 1500⟩,
   ⟨"Car Loan/Transport", 800⟩,
   ⟨"Food & Groceries", 1000⟩,
   ⟨"Utilities & Telco", 300⟩,
   ⟨"PTPTN / Education Loan", 200⟩,
   ⟨"Savings / Investments", 500⟩]

/-- Default deduction rows of `get_default_state` (src/app.py lines 149-153). -/
def default_deductions : List LineItem :=
  [⟨"SOCSO / PERKESO", 19.75⟩,
   ⟨"EIS / SIP", 7.90⟩,
   ⟨"PCB (Monthly Tax)", 300.00⟩]

/-- The baseline clean-slate template returned by `get_default_state`. -/
structure DefaultTemplate where
  basic_salary : ℚ
  allowances : ℚ
  variable_income : ℚ
  current_savings : ℚ
  epf_rate : ℤ
  expenses : List LineItem
  deductions : List LineItem
deriving Repr, DecidableEq

/-- `get_default_state` (src/app.py lines 133-154). -/
def get_default_state : DefaultTemplate :=
  { basic_salary := 6000
    allowances := 500
    variable_income := 0
    current_savings := 10000
    epf_rate := 11
    expenses := default_expenses
    deductions := default_deductions }

/-- Sum of the Amount column of an editor table (`df['Amount'].sum()`, 0 when empty). -/
def sumAmounts (l : List LineItem) : ℚ :=
  (l.map LineItem.amount).sum

/-- `epf_amount = (basic_salary + allowances) * (epf_rate / 100)` (src/app.py line 564). -/
def epf_amount (s : AppState) : ℚ :=
  (s.basic_salary + s.allowances) * ((s.epf_rate : ℚ) / 100)

/-- `total_deductions = epf_amount + edited_deductions['Amount'].sum()` (src/app.py line 570). -/
def total_deductions (s : AppState) : ℚ :=
  epf_amount s + sumAmounts s.deductions_list

/-- `gross = basic_salary + allowances + variable_income` (src/app.py line 583). -/
def gross (s : AppState) : ℚ :=
  s.basic_salary + s.allowances + s.variable_income

/-- `net = gross - total_deductions` (src/app.py line 584). -/
def net (s : AppState) : ℚ :=
  gross s - total_deductions s

/-- `total_exp = edited_expenses['Amount'].sum()` (src/app.py line 585). -/
def total_exp (s : AppState) : ℚ :=
  sumAmounts s.expenses

/-- `balance = net - total_exp` (src/app.py line 586). -/
def balance (s : AppState) : ℚ :=
  net s - total_exp s

/-- The scenario state of the spec: the documented default template viewed in MYR. -/
def scenario_state : AppState :=
  { basic_salary := 6000
    allowances := 500
    variable_income := 0
    current_savings := 10000
    epf_rate := 11
    expenses := default_expenses
    deductions_list := default_deductions
    active_currency := "MYR"
    loaded_salary := 6000
    loaded_allowances := 500
    loaded_var := 0
    loaded_savings := 10000
    loaded_epf := 11
    loaded_month := "December"
    loaded_year := 2025
    last_viewed_month := "December"
    last_viewed_year := 2025 }

/-- A state whose deductions exceed its income, to exhibit a negative net. -/
def deficit_state : AppState :=
  { scenario_state with
    basic_salary := 0
    allowances := 0
    variable_income := 0
    deductions_list := [⟨"PCB (Monthly Tax)", 100⟩] }

/-- C2: EPF is computed from basic salary plus allowances only (variable income is
excluded: changing it never changes `epf_amount`), net income is gross minus total
deductions with no clamping (it can go negative), and on the documented scenario
(basic 6000, allowances 500, EPF 11%, deductions 19.75+7.90+300, expenses 4300)
the derived metrics are epf 715.00, total deductions 1042.65, net 5457.35,
balance 1157.35. -/
theorem derived_metrics_spec :
    (∀ s : AppState, epf_amount s = (s.basic_salary + s.allowances) * ((s.epf_rate : ℚ) / 100)) ∧
    (∀ s : AppState, ∀ v : ℚ, epf_amount { s with variable_income := v } = epf_amount s) ∧
    (∀ s : AppState, net s = gross s - total_deductions s) ∧
    net deficit_state = -100 ∧ net deficit_state < 0 ∧
    sumAmounts scenario_state.deductions_list = 327.65 ∧
    total_exp scenario_state = 4300 ∧
    epf_amount scenario_state = 715 ∧
    total_deductions scenario_state = 1042.65 ∧
    net scenario_state = 5457.35 ∧
    balance scenario_state = 1157.35 := by
  refine ⟨fun s => rfl, fun s v => rfl, fun s => rfl, ?_, ?_, ?_, ?_, ?_, ?_, ?_, ?_⟩ <;>
    norm_num [deficit_state, scenario_state, net, gross, total_deductions, epf_amount,
      sumAmounts, total_exp, balance, default_expenses, default_deductions]

/-! ## Currency switch (src/app.py lines 229-288) -/

/-- Multiply one editor row's Amount by a rate (`exp['Amount'] *= rate`). -/
def scaleItem (r : ℚ) (it : LineItem) : LineItem :=
  { it with amount := it.amount * r }

/-- One scaling pass of `perform_currency_switch`: multiply every monetary session
field (basic_salary, allowances, variable_income, current_savings, every expense
and deduction Amount) by a rate (src/app.py lines 249-254 and 269-274). -/
def scaleMonetary (r : ℚ) (s : AppState) : AppState :=
  { s with
    basic_salary := s.basic_salary * r
    allowances := s.allowances * r
    variable_income := s.variable_income * r
    current_savings := s.current_savings * r
    expenses := s.expenses.map (scaleItem r)
    deductions_list := s.deductions_list.map (scaleItem r) }

/-- Step 3 of `perform_currency_switch`: refresh the `loaded_*` sync helpers from
the current values and record the new active currency (src/app.py lines 282-287). -/
def syncLoaded (target : String) (s : AppState) : AppState :=
  { s with
    loaded_salary := s.basic_salary
    loaded_allowances := s.allowances
    loaded_var := s.variable_income
    loaded_savings := s.current_savings
    active_currency := target }

/-- `perform_currency_switch` (src/app.py lines 233-288). `fetchRate` models
`yf.Ticker(t).history(period="1d")['Close'].iloc[-1]`, keyed by the ticker
string; `none` covers both an empty history and a raised exception. The second
component of the result is the error message surfaced via `st.error`, `none` on
success. Note that the source multiplies the session fields in place during
step 1, before step 2's rate has been fetched. -/
def perform_currency_switch (fetchRate : String → Option ℚ) (target : String)
    (s : AppState) : AppState × Option String :=
  if s.active_currency = target then (s, none)
  else if s.active_currency ≠ "MYR" then
    match fetchRate (s.active_currency ++ "MYR=X") with
    | none => (s, some "Could not fetch rates to normalize currency.")
    | some to_myr_rate =>
      let s1 := scaleMonetary to_myr_rate s
      if target ≠ "MYR" then
        match fetchRate ("MYR" ++ target ++ "=X") with
        | none => (s1, some "Could not fetch target rates.")
        | some to_target_rate => (syncLoaded target (scaleMonetary to_target_rate s1), none)
      else (syncLoaded target s1, none)
  else
    if target ≠ "MYR" then
      match fetchRate ("MYR" ++ target ++ "=X") with
      | none => (s, some "Could not fetch target rates.")
      | some to_target_rate => (syncLoaded target (scaleMonetary to_target_rate s), none)
    else (syncLoaded target s, none)

/-- A converter that knows the USD→MYR rate but has no MYR→GBP data. -/
def c1_fetch : String → Option ℚ :=
  fun t => if t = "USDMYR=X" then some (21 / 5) else none

/-- A concrete dashboard state displayed in USD. -/
def c1_state : AppState :=
  { basic_salary := 1000
    allowances := 200
    variable_income := 50
    current_savings := 3000
    epf_rate := 11
    expenses := [⟨"Rent", 100⟩]
    deductions_list := [⟨"Tax", 10⟩]
    active_currency := "USD"
    loaded_salary := 1000
    loaded_allowances := 200
    loaded_var := 50
    loaded_savings := 3000
    loaded_epf := 11
    loaded_month := "January"
    loaded_year := 2025
    last_viewed_month := "January"
    last_viewed_year := 2025 }

/-- C1: the switch is NOT all-or-nothing. Switching USD→GBP when the USD→MYR rate
(21/5) is available but the MYR→GBP lookup returns no data surfaces an error and
leaves `active_currency` at "USD", but every monetary field has already been
rescaled by 21/5 (basic_salary 1000 becomes 4200, the expense Amount 100 becomes
420): a partial rescale, contradicting the claim that a failed lookup leaves all
monetary fields unchanged. -/
theorem currency_switch_partial_rescale :
    (perform_currency_switch c1_fetch "GBP" c1_state).2 = some "Could not fetch target rates." ∧
    (perform_currency_switch c1_fetch "GBP" c1_state).1.active_currency = "USD" ∧
    (perform_currency_switch c1_fetch "GBP" c1_state).1.basic_salary = 4200 ∧
    (perform_currency_switch c1_fetch "GBP" c1_state).1.expenses = [⟨"Rent", 420⟩] ∧
    c1_state.basic_salary = 1000 ∧
    (perform_currency_switch c1_fetch "GBP" c1_state).1.basic_salary ≠ c1_state.basic_salary := by
  refine ⟨?_, ?_, ?_, ?_, ?_, ?_⟩ <;>
    simp [perform_currency_switch, c1_fetch, c1_state, scaleMonetary, scaleItem] <;> norm_num

/-! ## Algebra of the success path of the currency switch -/

lemma scaleItem_scaleItem (r t : ℚ) (it : LineItem) :
    scaleItem t (scaleItem r it) = scaleItem (r * t) it := by
  cases it
  simp [scaleItem, mul_assoc]

lemma scaleItem_one (it : LineItem) : scaleItem 1 it = it := by
  cases it
  simp [scaleItem]

lemma map_scaleItem_map_scaleItem (r t : ℚ) (l : List LineItem) :
    (l.map (scaleItem r)).map (scaleItem t) = l.map (scaleItem (r * t)) := by
  rw [List.map_map]
  exact List.map_congr_left fun it _ => scaleItem_scaleItem r t it

lemma map_scaleItem_one (l : List LineItem) : l.map (scaleItem 1) = l :=
  (List.map_congr_left fun it _ => scaleItem_one it).trans (List.map_id l)

lemma scaleMonetary_scaleMonetary (r t : ℚ) (s : AppState) :
    scaleMonetary t (scaleMonetary r s) = scaleMonetary (r * t) s := by
  simp only [scaleMonetary, map_scaleItem_map_scaleItem, mul_assoc]

lemma scaleMonetary_one (s : AppState) : scaleMonetary 1 s = s := by
  simp [scaleMonetary, map_scaleItem_one, mul_one]

/-- The effective multiplicative factor of a successful switch: the step-1 rate
when the current currency is not MYR, times the step-2 rate when the target is
not MYR. -/
def switch_factor (cur target : String) (r1 r2 : ℚ) : ℚ :=
  (if cur = "MYR" then 1 else r1) * (if target = "MYR" then 1 else r2)

/-- On the success path (both required rates available), `perform_currency_switch`
rescales every monetary field by `switch_factor`, refreshes the sync helpers and
sets the new active currency, surfacing no error. -/
lemma perform_currency_switch_success (fetchRate : String → Option ℚ) (target : String)
    (s : AppState) (r1 r2 : ℚ)
    (hne : s.active_currency ≠ target)
    (h1 : fetchRate (s.active_currency ++ "MYR=X") = some r1)
    (h2 : fetchRate ("MYR" ++ target ++ "=X") = some r2) :
    perform_currency_switch fetchRate target s =
      (syncLoaded target (scaleMonetary (switch_factor s.active_currency target r1 r2) s), none) := by
  by_cases hcur : s.active_currency = "MYR"
  · by_cases htgt : target = "MYR"
    · exact absurd (hcur.trans htgt.symm) hne
    · have hne2 : "MYR" ≠ target := hcur ▸ hne
      simp [perform_currency_switch, hne, hne2, switch_factor, hcur, htgt, h2, one_mul]
  · by_cases htgt : target = "MYR"
    · simp [perform_currency_switch, hne, switch_factor, hcur, htgt, h1, mul_one,
        scaleMonetary_one]
    · simp [perform_currency_switch, hne, switch_factor, hcur, htgt, h1, h2,
        scaleMonetary_scaleMonetary]

lemma sumAmounts_map_scaleItem (r : ℚ) (l : List LineItem) :
    sumAmounts (l.map (scaleItem r)) = sumAmounts l * r := by
  induction l with
  | nil => simp [sumAmounts]
  | cons a t ih =>
    simp only [List.map_cons, sumAmounts, List.sum_cons, scaleItem] at ih ⊢
    rw [ih, add_mul]

/-- C10: a successful currency switch multiplies basic salary, allowances, variable
income, current savings and every expense and deduction Amount by the one common
positive factor rate(current→MYR) · rate(MYR→target) (a skipped leg contributes
factor 1), and consequently gross income, EPF amount, total deductions, net
income, total expenses and balance each scale by that same factor. -/
theorem switch_scales_all_fields (fetchRate : String → Option ℚ) (target : String)
    (s : AppState) (r1 r2 : ℚ)
    (hne : s.active_currency ≠ target)
    (h1 : fetchRate (s.active_currency ++ "MYR=X") = some r1)
    (h2 : fetchRate ("MYR" ++ target ++ "=X") = some r2)
    (hr1 : 0 < r1) (hr2 : 0 < r2) :
    0 < switch_factor s.active_currency target r1 r2 ∧
    (perform_currency_switch fetchRate target s).2 = none ∧
    (perform_currency_switch fetchRate target s).1.active_currency = target ∧
    (perform_currency_switch fetchRate target s).1.basic_salary
      = s.basic_salary * switch_factor s.active_currency target r1 r2 ∧
    (perform_currency_switch fetchRate target s).1.allowances
      = s.allowances * switch_factor s.active_currency target r1 r2 ∧
    (perform_currency_switch fetchRate target s).1.variable_income
      = s.variable_income * switch_factor s.active_currency target r1 r2 ∧
    (perform_currency_switch fetchRate target s).1.current_savings
      = s.current_savings * switch_factor s.active_currency target r1 r2 ∧
    (perform_currency_switch fetchRate target s).1.expenses
      = s.expenses.map (scaleItem (switch_factor s.active_currency target r1 r2)) ∧
    (perform_currency_switch fetchRate target s).1.deductions_list
      = s.deductions_list.map (scaleItem (switch_factor s.active_currency target r1 r2)) ∧
    gross (perform_currency_switch fetchRate target s).1
      = gross s * switch_factor s.active_currency target r1 r2 ∧
    epf_amount (perform_currency_switch fetchRate target s).1
      = epf_amount s * switch_factor s.active_currency target r1 r2 ∧
    total_deductions (perform_currency_switch fetchRate target s).1
      = total_deductions s * switch_factor s.active_currency target r1 r2 ∧
    net (perform_currency_switch fetchRate target s).1
      = net s * switch_factor s.active_currency target r1 r2 ∧
    total_exp (perform_currency_switch fetchRate target s).1
      = total_exp s * switch_factor s.active_currency target r1 r2 ∧
    balance (perform_currency_switch fetchRate target s).1
      = balance s * switch_factor s.active_currency target r1 r2 := by
  have hpos : 0 < switch_factor s.active_currency target r1 r2 := by
    unfold switch_factor
    split_ifs <;> simp [hr1, hr2, mul_pos]
  rw [perform_currency_switch_success fetchRate target s r1 r2 hne h1 h2]
  refine ⟨hpos, rfl, rfl, rfl, rfl, rfl, rfl, rfl, rfl, ?_, ?_, ?_, ?_, ?_, ?_⟩ <;>
    simp only [gross, epf_amount, total_deductions, net, total_exp, balance,
      syncLoaded, scaleMonetary, sumAmounts_map_scaleItem] <;> ring

/-- A converter for the USD→EUR leg: USD→MYR is 4, MYR→EUR is 1/5. -/
def wfetchF : String → Option ℚ :=
  fun t => if t = "USDMYR=X" then some 4 else if t = "MYREUR=X" then some (1 / 5) else none

/-- The inverse converter for the EUR→USD leg: EUR→MYR is 5, MYR→USD is 1/4. -/
def wfetchB : String → Option ℚ :=
  fun t => if t = "EURMYR=X" then some 5 else if t = "MYRUSD=X" then some (1 / 4) else none

/-- Witness for C10 at a concrete input: switching the USD dashboard `c1_state`
to EUR with rates 4 and 1/5 succeeds and scales everything by the common factor. -/
theorem switch_scales_all_fields_witness :
    0 < switch_factor c1_state.active_currency "EUR" 4 (1 / 5) ∧
    (perform_currency_switch wfetchF "EUR" c1_state).2 = none ∧
    (perform_currency_switch wfetchF "EUR" c1_state).1.active_currency = "EUR" ∧
    (perform_currency_switch wfetchF "EUR" c1_state).1.basic_salary
      = c1_state.basic_salary * switch_factor c1_state.active_currency "EUR" 4 (1 / 5) ∧
    (perform_currency_switch wfetchF "EUR" c1_state).1.allowances
      = c1_state.allowances * switch_factor c1_state.active_currency "EUR" 4 (1 / 5) ∧
    (perform_currency_switch wfetchF "EUR" c1_state).1.variable_income
      = c1_state.variable_income * switch_factor c1_state.active_currency "EUR" 4 (1 / 5) ∧
    (perform_currency_switch wfetchF "EUR" c1_state).1.current_savings
      = c1_state.current_savings * switch_factor c1_state.active_currency "EUR" 4 (1 / 5) ∧
    (perform_currency_switch wfetchF "EUR" c1_state).1.expenses
      = c1_state.expenses.map (scaleItem (switch_factor c1_state.active_currency "EUR" 4 (1 / 5))) ∧
    (perform_currency_switch wfetchF "EUR" c1_state).1.deductions_list
      = c1_state.deductions_list.map (scaleItem (switch_factor c1_state.active_currency "EUR" 4 (1 / 5))) ∧
    gross (perform_currency_switch wfetchF "EUR" c1_state).1
      = gross c1_state * switch_factor c1_state.active_currency "EUR" 4 (1 / 5) ∧
    epf_amount (perform_currency_switch wfetchF "EUR" c1_state).1
      = epf_amount c1_state * switch_factor c1_state.active_currency "EUR" 4 (1 / 5) ∧
    total_deductions (perform_currency_switch wfetchF "EUR" c1_state).1
      = total_deductions c1_state * switch_factor c1_state.active_currency "EUR" 4 (1 / 5) ∧
    net (perform_currency_switch wfetchF "EUR" c1_state).1
      = net c1_state * switch_factor c1_state.active_currency "EUR" 4 (1 / 5) ∧
    total_exp (perform_currency_switch wfetchF "EUR" c1_state).1
      = total_exp c1_state * switch_factor c1_state.active_currency "EUR" 4 (1 / 5) ∧
    balance (perform_currency_switch wfetchF "EUR" c1_state).1
      = balance c1_state * switch_factor c1_state.active_currency "EUR" 4 (1 / 5) :=
  switch_scales_all_fields wfetchF "EUR" c1_state 4 (1 / 5) (by simp [c1_state])
    (by simp [wfetchF, c1_state]) (by simp [wfetchB, wfetchF]) (by norm_num) (by norm_num)

/-- C6: converting a dashboard from currency A to B and back to A with the
inverse rates returns every monetary field (and the whole expense and deduction
tables) exactly to its original value — in the rational model the round trip is
exact, hence within any relative tolerance, in particular 1e-6. -/
theorem currency_round_trip (fetchF fetchB : String → Option ℚ) (A B : String)
    (s : AppState) (r1 r2 : ℚ)
    (hA : s.active_currency = A) (hAB : A ≠ B)
    (h1 : fetchF (A ++ "MYR=X") = some r1)
    (h2 : fetchF ("MYR" ++ B ++ "=X") = some r2)
    (h3 : fetchB (B ++ "MYR=X") = some r2⁻¹)
    (h4 : fetchB ("MYR" ++ A ++ "=X") = some r1⁻¹)
    (hr1 : r1 ≠ 0) (hr2 : r2 ≠ 0) :
    (perform_currency_switch fetchB A (perform_currency_switch fetchF B s).1).1.active_currency = A ∧
    (perform_currency_switch fetchB A (perform_currency_switch fetchF B s).1).1.basic_salary
      = s.basic_salary ∧
    (perform_currency_switch fetchB A (perform_currency_switch fetchF B s).1).1.allowances
      = s.allowances ∧
    (perform_currency_switch fetchB A (perform_currency_switch fetchF B s).1).1.variable_income
      = s.variable_income ∧
    (perform_currency_switch fetchB A (perform_currency_switch fetchF B s).1).1.current_savings
      = s.current_savings ∧
    (perform_currency_switch fetchB A (perform_currency_switch fetchF B s).1).1.expenses
      = s.expenses ∧
    (perform_currency_switch fetchB A (perform_currency_switch fetchF B s).1).1.deductions_list
      = s.deductions_list := by
  subst hA
  have hfg : switch_factor s.active_currency B r1 r2
      * switch_factor B s.active_currency r2⁻¹ r1⁻¹ = 1 := by
    unfold switch_factor
    split_ifs <;> field_simp
    ring
  rw [perform_currency_switch_success fetchF B s r1 r2 hAB h1 h2]
  rw [perform_currency_switch_success fetchB s.active_currency
    (syncLoaded B (scaleMonetary (switch_factor s.active_currency B r1 r2) s)) r2⁻¹ r1⁻¹
    (Ne.symm hAB) h3 h4]
  refine ⟨rfl, ?_, ?_, ?_, ?_, ?_, ?_⟩ <;>
    simp only [syncLoaded, scaleMonetary, map_scaleItem_map_scaleItem, mul_assoc, hfg,
      mul_one, map_scaleItem_one]

/-- Witness for C6 at a concrete input: the USD dashboard `c1_state` converted
USD→EUR (rates 4 and 1/5) and back EUR→USD (rates 5 and 1/4) is restored exactly. -/
theorem currency_round_trip_witness :
    (perform_currency_switch wfetchB "USD" (perform_currency_switch wfetchF "EUR" c1_state).1).1.active_currency = "USD" ∧
    (perform_currency_switch wfetchB "USD" (perform_currency_switch wfetchF "EUR" c1_state).1).1.basic_salary
      = c1_state.basic_salary ∧
    (perform_currency_switch wfetchB "USD" (perform_currency_switch wfetchF "EUR" c1_state).1).1.allowances
      = c1_state.allowances ∧
    (perform_currency_switch wfetchB "USD" (perform_currency_switch wfetchF "EUR" c1_state).1).1.variable_income
      = c1_state.variable_income ∧
    (perform_currency_switch wfetchB "USD" (perform_currency_switch wfetchF "EUR" c1_state).1).1.current_savings
      = c1_state.current_savings ∧
    (perform_currency_switch wfetchB "USD" (perform_currency_switch wfetchF "EUR" c1_state).1).1.expenses
      = c1_state.expenses ∧
    (perform_currency_switch wfetchB "USD" (perform_currency_switch wfetchF "EUR" c1_state).1).1.deductions_list
      = c1_state.deductions_list :=
  currency_round_trip wfetchF wfetchB "USD" "EUR" c1_state 4 (1 / 5) rfl (by simp)
    (by simp [wfetchF]) (by simp [wfetchF]) (by simp [wfetchB])
    (by simp [wfetchB]) (by norm_num) (by norm_num)

/-! ## The History worksheet (src/app.py lines 186-227)

A worksheet is its `get_all_values()` matrix: the header row followed by data
rows. A record to save is the ordered key/value pairs of `row_data_dict`. -/

/-- The dedup mask of `save_row_to_history`: a data row matches when its Month
and Year cells (located through the header) equal the record's key. -/
def matches_key (hdr row : List String) (month year : String) : Bool :=
  (row.getD (hdr.indexOf "Month") "" == month) && (row.getD (hdr.indexOf "Year") "" == year)

/-- `save_row_to_history` (src/app.py lines 186-213): enforce the header (clearing
the sheet when the existing header is absent or differs from the record's keys),
delete every data row whose (Month, Year) matches the record's, then append the
record's values. -/
def save_row_to_history (row_data : List (String × String)) (ws : List (List String)) :
    List (List String) :=
  let expected_headers := row_data.map Prod.fst
  let current_headers := ws.headD []
  let ws1 := if current_headers = [] ∨ current_headers ≠ expected_headers
    then [expected_headers] else ws
  let month := (List.lookup "Month" row_data).getD ""
  let year := (List.lookup "Year" row_data).getD ""
  let hdr := ws1.headD []
  (hdr :: ws1.tail.filter (fun r => !(matches_key hdr r month year))) ++ [row_data.map Prod.snd]

/-- Number of data rows of a worksheet carrying a given (Month, Year) key. -/
def key_count (ws : List (List String)) (month year : String) : ℕ :=
  (ws.tail.filter (fun r => matches_key (ws.headD []) r month year)).length

/-- The label of a data row, `Month + " " + Year` (src/app.py line 223). -/
def rowLabel (hdr row : List String) : String :=
  row.getD (hdr.indexOf "Month") "" ++ " " ++ row.getD (hdr.indexOf "Year") ""

/-- `delete_rows_from_sheet` (src/app.py lines 215-227): drop every data row whose
label is in the request list and write the rest back; an empty table is left
untouched. -/
def delete_rows_from_sheet (ws : List (List String)) (month_year_list : List String) :
    List (List String) :=
  match ws with
  | [] => []
  | hdr :: data =>
    if data.isEmpty then hdr :: data
    else hdr :: data.filter (fun r => !(month_year_list.contains (rowLabel hdr r)))

/-- The Delete Selected button handler (src/app.py lines 707-711): when a
selection exists, delete it and report the `st.success` message "Deleted!". -/
def delete_selected_handler (ws : List (List String)) (to_delete : List String) :
    List (List String) × Option String :=
  if to_delete.isEmpty then (ws, none)
  else (delete_rows_from_sheet ws to_delete, some "Deleted!")

lemma map_snd_getD_indexOf (r : List (String × String)) (k v : String)
    (h : List.lookup k r = some v) :
    (r.map Prod.snd).getD ((r.map Prod.fst).indexOf k) "" = v := by
  induction r with
  | nil => simp at h
  | cons a t ih =>
    obtain ⟨ka, va⟩ := a
    rw [List.map_cons, List.map_cons]
    by_cases hk : k = ka
    · subst hk
      rw [List.lookup_cons_self, Option.some.injEq] at h
      rw [List.indexOf_cons_self, List.getD_cons_zero]
      exact h
    · have hbeq : (k == ka) = false := beq_eq_false_iff_ne.mpr hk
      rw [List.lookup_cons, hbeq] at h
      rw [List.indexOf_cons_ne _ (Ne.symm hk), List.getD_cons_succ]
      exact ih h

lemma filter_filter_not (p : List String → Bool) (l : List (List String)) :
    (l.filter (fun a => !(p a))).filter p = [] := by
  induction l with
  | nil => simp
  | cons a t ih => by_cases h : p a <;> simp [h, ih]

lemma length_filter_filter_le (p q : List String → Bool) (l : List (List String)) :
    ((l.filter q).filter p).length ≤ (l.filter p).length :=
  (List.Sublist.filter p (List.filter_sublist l)).length_le

/-- The saved record's value row matches its own (Month, Year) key. -/
lemma matches_key_values (row_data : List (String × String)) (m y : String)
    (hm : List.lookup "Month" row_data = some m)
    (hy : List.lookup "Year" row_data = some y) :
    matches_key (row_data.map Prod.fst) (row_data.map Prod.snd) m y = true := by
  unfold matches_key
  rw [map_snd_getD_indexOf _ _ _ hm, map_snd_getD_indexOf _ _ _ hy,
    beq_self_eq_true, beq_self_eq_true, Bool.and_self]

/-- Closed form of `save_row_to_history`: the result is the record's header, the
surviving (non-matching) prior data rows — none when the header was enforced by
clearing — and the record's values appended. -/
lemma save_row_to_history_eq (row_data : List (String × String)) (ws : List (List String)) :
    save_row_to_history row_data ws =
      (row_data.map Prod.fst) ::
        ((if ws.headD [] = [] ∨ ws.headD [] ≠ row_data.map Prod.fst then [] else ws.tail).filter
            (fun r => !(matches_key (row_data.map Prod.fst) r
              ((List.lookup "Month" row_data).getD "") ((List.lookup "Year" row_data).getD "")))
          ++ [row_data.map Prod.snd]) := by
  simp only [save_row_to_history]
  split_ifs with h
  · simp only [List.headD_cons, List.tail_cons, List.filter_nil, List.cons_append,
      List.nil_append]
  · push_neg at h
    rw [h.2]
    simp only [List.cons_append]

/-- C3: saving is an upsert. After `save_row_to_history`, the data rows matching
the saved record's (Month, Year) key are exactly the one value row just saved —
so a second save of the same key replaces the first and leaves exactly one record
for that key holding the second save's data — and a store holding at most one row
per key keeps that invariant through any save. -/
theorem save_row_upsert (row_data : List (String × String)) (ws : List (List String)) (m y : String)
    (hm : List.lookup "Month" row_data = some m)
    (hy : List.lookup "Year" row_data = some y) :
    ((save_row_to_history row_data ws).tail.filter
        (fun r => matches_key (row_data.map Prod.fst) r m y)) = [row_data.map Prod.snd] ∧
    (∀ m2 y2 : String,
      key_count ws m2 y2 ≤ 1 → key_count (save_row_to_history row_data ws) m2 y2 ≤ 1) := by
  rw [save_row_to_history_eq row_data ws, hm, hy, Option.getD_some, Option.getD_some]
  constructor
  · rw [List.tail_cons, List.filter_append, filter_filter_not,
      @List.filter_cons_of_pos _ (fun r => matches_key (row_data.map Prod.fst) r m y)
        (row_data.map Prod.snd) [] (matches_key_values row_data m y hm hy),
      List.filter_nil, List.nil_append]
  · intro m2 y2 hle
    rw [key_count, List.tail_cons, List.headD_cons, List.filter_append, List.length_append]
    by_cases hmatch : matches_key (row_data.map Prod.fst) (row_data.map Prod.snd) m2 y2
    · have hkey : m = m2 ∧ y = y2 := by
        unfold matches_key at hmatch
        rw [map_snd_getD_indexOf _ _ _ hm, map_snd_getD_indexOf _ _ _ hy,
          Bool.and_eq_true, beq_iff_eq, beq_iff_eq] at hmatch
        exact hmatch
      obtain ⟨hm2, hy2⟩ := hkey
      subst hm2
      subst hy2
      rw [filter_filter_not, List.length_nil,
        @List.filter_cons_of_pos _ (fun r => matches_key (row_data.map Prod.fst) r m y)
          (row_data.map Prod.snd) [] hmatch,
        List.filter_nil, List.length_cons, List.length_nil]
    · rw [@List.filter_cons_of_neg _ (fun r => matches_key (row_data.map Prod.fst) r m2 y2)
          (row_data.map Prod.snd) [] hmatch,
        List.filter_nil, List.length_nil, add_zero]
      by_cases hclear : ws.headD [] = [] ∨ ws.headD [] ≠ row_data.map Prod.fst
      · rw [if_pos hclear, List.filter_nil, List.filter_nil, List.length_nil]
        exact Nat.zero_le 1
      · rw [if_neg hclear]
        push_neg at hclear
        refine le_trans (length_filter_filter_le _ _ _) ?_
        have hkc : key_count ws m2 y2
            = (ws.tail.filter (fun r => matches_key (row_data.map Prod.fst) r m2 y2)).length := by
          rw [key_count, hclear.2]
        rw [hkc] at hle
        exact hle

/-- A worksheet with the record schema and two stored periods. -/
def c3_sheet : List (List String) :=
  [["Month", "Year", "Balance"], ["January", "2025", "7"], ["February", "2025", "8"]]

/-- A record overwriting January 2025. -/
def c3_row : List (String × String) :=
  [("Month", "January"), ("Year", "2025"), ("Balance", "10")]

/-- Witness for C3 at a concrete input: saving January 2025 into a sheet already
holding January 2025 leaves exactly one January 2025 row, carrying the new data. -/
theorem save_row_upsert_witness :
    ((save_row_to_history c3_row c3_sheet).tail.filter
        (fun r => matches_key (c3_row.map Prod.fst) r "January" "2025"))
      = [c3_row.map Prod.snd] ∧
    (∀ m2 y2 : String,
      key_count c3_sheet m2 y2 ≤ 1 → key_count (save_row_to_history c3_row c3_sheet) m2 y2 ≤ 1) :=
  save_row_upsert c3_row c3_sheet "January" "2025" rfl rfl

/-- C9: when the existing header row is absent or differs from the record's key
list, `save_row_to_history` clears the whole worksheet before writing, so the
result holds only the new header and the record just saved — every previously
persisted record for every other PeriodKey is erased. -/
theorem header_mismatch_erases_history (row_data : List (String × String))
    (ws : List (List String))
    (h : ws.headD [] = [] ∨ ws.headD [] ≠ row_data.map Prod.fst) :
    save_row_to_history row_data ws = [row_data.map Prod.fst, row_data.map Prod.snd] := by
  rw [save_row_to_history_eq row_data ws, if_pos h, List.filter_nil, List.nil_append]

/-- A worksheet in an older two-column schema holding February 2024. -/
def c9_sheet : List (List String) :=
  [["Month", "Year"], ["February", "2024"]]

/-- Witness for C9 at a concrete input: saving a three-column January 2025 record
over the two-column sheet erases the stored February 2024 record entirely. -/
theorem header_mismatch_erases_history_witness :
    save_row_to_history c3_row c9_sheet = [c3_row.map Prod.fst, c3_row.map Prod.snd] :=
  header_mismatch_erases_history c3_row c9_sheet (by simp [c9_sheet, c3_row])

/-- A sheet holding only January 2025, for the delete scenarios. -/
def c8_sheet : List (List String) :=
  [["Month", "Year", "Net_Income"], ["January", "2025", "100"]]

/-- C8 counterexample: deleting the absent key "March 2024" leaves the store
untouched and raises nothing, but the handler reports the generic success
message "Deleted!" — it never reports "no matching record found", so the claim's
reported message is wrong. -/
theorem delete_missing_reports_generic_success :
    delete_selected_handler c8_sheet ["March 2024"] = (c8_sheet, some "Deleted!") ∧
    (some "Deleted!" : Option String) ≠ some "no matching record found" := by
  constructor
  · simp [delete_selected_handler, delete_rows_from_sheet, rowLabel, c8_sheet]
  · simp

/-- C8 amended: deleting PeriodKeys none of which label a stored data row is a
no-op on the store and raises no error; the handler reports the generic success
message "Deleted!" rather than "no matching record found". -/
theorem delete_missing_is_noop (hdr : List String) (data : List (List String))
    (to_delete : List String)
    (hne : to_delete ≠ [])
    (hno : ∀ r ∈ data, rowLabel hdr r ∉ to_delete) :
    delete_selected_handler (hdr :: data) to_delete = (hdr :: data, some "Deleted!") := by
  unfold delete_selected_handler
  rw [if_neg (by simpa using hne)]
  rw [show delete_rows_from_sheet (hdr :: data) to_delete
      = if data.isEmpty then hdr :: data
        else hdr :: data.filter (fun r => !(to_delete.contains (rowLabel hdr r))) from rfl]
  by_cases hd : data.isEmpty
  · rw [if_pos hd]
  · rw [if_neg hd]
    rw [List.filter_eq_self.mpr]
    intro r hr
    simpa using hno r hr

/-- Witness for the amended C8 at a concrete input: deleting "March 2024" from a
sheet holding only January 2025 returns the sheet unchanged with the "Deleted!"
report. -/
theorem delete_missing_is_noop_witness :
    delete_selected_handler (["Month", "Year", "Net_Income"] :: [["January", "2025", "100"]])
        ["March 2024"]
      = (["Month", "Year", "Net_Income"] :: [["January", "2025", "100"]], some "Deleted!") :=
  delete_missing_is_noop ["Month", "Year", "Net_Income"] [["January", "2025", "100"]]
    ["March 2024"] (by simp) (by simp [rowLabel])

/-! ## Period change watcher (src/app.py lines 511-548) -/

/-- The parsed columns of a History row carrying the full record schema
(the row has an `Expenses_JSON` column). Optional fields model the per-column
`.get(key, default)` fallbacks of the loader. -/
structure HistPayload where
  basic_salary : Option ℚ
  allowances : Option ℚ
  variable_income : Option ℚ
  current_savings : Option ℚ
  epf_rate : Option ℤ
  expenses : List LineItem
  deductions : Option (List LineItem)
  currency : Option String
deriving Repr, DecidableEq

/-- One row of the History sheet as seen by the watcher: its key columns, and
the rest of the record when the row carries an `Expenses_JSON` column
(`none` models a legacy row without that column). -/
structure HistRow where
  month : String
  year : ℤ
  payload : Option HistPayload
deriving Repr, DecidableEq

/-- The period-change watcher (src/app.py lines 511-548): when the selected
(month, year) differs from the last viewed pair, look the new key up in History;
on a hit with a full schema, load every field (with the source's per-column
defaults); otherwise reset the draft to `get_default_state` and the currency to
MYR. Either way the loaded_* mirrors and the last-viewed key are refreshed. -/
def period_change_watcher (history : List HistRow) (selected_month : String)
    (selected_year : ℤ) (s : AppState) : AppState :=
  if selected_month ≠ s.last_viewed_month ∨ selected_year ≠ s.last_viewed_year then
    let found := history.find? (fun r => r.month == selected_month && r.year == selected_year)
    let s1 :=
      match found with
      | some row =>
        match row.payload with
        | some p =>
          { s with
            basic_salary := p.basic_salary.getD 0
            allowances := p.allowances.getD 0
            variable_income := p.variable_income.getD 0
            current_savings := p.current_savings.getD 0
            epf_rate := p.epf_rate.getD 11
            expenses := p.expenses
            deductions_list := p.deductions.getD []
            active_currency := p.currency.getD "MYR" }
        | none =>
          { s with
            basic_salary := get_default_state.basic_salary
            allowances := get_default_state.allowances
            variable_income := get_default_state.variable_income
            current_savings := get_default_state.current_savings
            epf_rate := get_default_state.epf_rate
            expenses := get_default_state.expenses
            deductions_list := get_default_state.deductions
            active_currency := "MYR" }
      | none =>
        { s with
          basic_salary := get_default_state.basic_salary
          allowances := get_default_state.allowances
          variable_income := get_default_state.variable_income
          current_savings := get_default_state.current_savings
          epf_rate := get_default_state.epf_rate
          expenses := get_default_state.expenses
          deductions_list := get_default_state.deductions
          active_currency := "MYR" }
    { s1 with
      loaded_salary := s1.basic_salary
      loaded_allowances := s1.allowances
      loaded_var := s1.variable_income
      loaded_savings := s1.current_savings
      loaded_epf := s1.epf_rate
      last_viewed_month := selected_month
      last_viewed_year := selected_year }
  else s

/-- C4: switching to a period with no History record resets every draft field to
the documented default template and the currency to MYR, whatever state was
displayed before the switch. -/
theorem period_change_unseen_resets (history : List HistRow) (selected_month : String)
    (selected_year : ℤ) (s : AppState)
    (hchange : selected_month ≠ s.last_viewed_month ∨ selected_year ≠ s.last_viewed_year)
    (hnone : history.find? (fun r => r.month == selected_month && r.year == selected_year)
      = none) :
    (period_change_watcher history selected_month selected_year s).basic_salary = 6000 ∧
    (period_change_watcher history selected_month selected_year s).allowances = 500 ∧
    (period_change_watcher history selected_month selected_year s).variable_income = 0 ∧
    (period_change_watcher history selected_month selected_year s).current_savings = 10000 ∧
    (period_change_watcher history selected_month selected_year s).epf_rate = 11 ∧
    (period_change_watcher history selected_month selected_year s).expenses = default_expenses ∧
    (period_change_watcher history selected_month selected_year s).deductions_list
      = default_deductions ∧
    (period_change_watcher history selected_month selected_year s).active_currency = "MYR" ∧
    (period_change_watcher history selected_month selected_year s).last_viewed_month
      = selected_month ∧
    (period_change_watcher history selected_month selected_year s).last_viewed_year
      = selected_year := by
  unfold period_change_watcher
  rw [if_pos hchange, hnone]
  exact ⟨rfl, rfl, rfl, rfl, rfl, rfl, rfl, rfl, rfl, rfl⟩

/-- Witness for C4 at a concrete input: moving the c1_state dashboard (last
viewed January 2025, shown in USD with edited values) to February 2025 with an
empty History yields the default template in MYR. -/
theorem period_change_unseen_resets_witness :
    (period_change_watcher [] "February" 2025 c1_state).basic_salary = 6000 ∧
    (period_change_watcher [] "February" 2025 c1_state).allowances = 500 ∧
    (period_change_watcher [] "February" 2025 c1_state).variable_income = 0 ∧
    (period_change_watcher [] "February" 2025 c1_state).current_savings = 10000 ∧
    (period_change_watcher [] "February" 2025 c1_state).epf_rate = 11 ∧
    (period_change_watcher [] "February" 2025 c1_state).expenses = default_expenses ∧
    (period_change_watcher [] "February" 2025 c1_state).deductions_list = default_deductions ∧
    (period_change_watcher [] "February" 2025 c1_state).active_currency = "MYR" ∧
    (period_change_watcher [] "February" 2025 c1_state).last_viewed_month = "February" ∧
    (period_change_watcher [] "February" 2025 c1_state).last_viewed_year = 2025 :=
  period_change_unseen_resets [] "February" 2025 c1_state (Or.inl (by simp [c1_state])) rfl

/-! ## Wealth projection (src/app.py lines 619-644) -/

/-- One point appended to `future`: `{"Month": m+1, "Nominal Wealth": acc,
"Real Purchasing Power": acc / cumulative_deflator}`. -/
structure ProjPoint where
  month : ℕ
  nominal_wealth : ℚ
  real_purchasing_power : ℚ
deriving Repr, DecidableEq

/-- The inflation rate used at month index m:
`yearly_rates_list[m // 12] if m // 12 < len(yearly_rates_list) else 0.03`
(src/app.py lines 633-634). -/
def rateAt (yearly_rates_list : List ℚ) (m : ℕ) : ℚ :=
  if m / 12 < yearly_rates_list.length then yearly_rates_list.getD (m / 12) 0 else 3 / 100

/-- The projection loop body (src/app.py lines 632-638), recursing over the
remaining months with the running month index, accumulator and deflator. -/
def projection_loop (yearly_rates_list : List ℚ) (bal : ℚ) :
    ℕ → ℕ → ℚ → ℚ → List ProjPoint
  | 0, _, _, _ => []
  | n + 1, m, acc, cumulative_deflator =>
    let rate := rateAt yearly_rates_list m
    let monthly_inflation := rate / 12
    let acc2 := acc + bal
    let defl2 := cumulative_deflator * (1 + monthly_inflation)
    ⟨m + 1, acc2, acc2 / defl2⟩ :: projection_loop yearly_rates_list bal n (m + 1) acc2 defl2

/-- The whole projection: `acc` starts at `current_savings`, the deflator at 1,
and the loop runs for `months_to_project` months (src/app.py lines 629-638). -/
def wealth_projection (yearly_rates_list : List ℚ) (current_savings bal : ℚ)
    (months_to_project : ℕ) : List ProjPoint :=
  projection_loop yearly_rates_list bal months_to_project 0 current_savings 1

/-- Closed form of the nominal wealth before month m: savings plus m surpluses. -/
def nominal_at (current_savings bal : ℚ) (m : ℕ) : ℚ :=
  current_savings + (m : ℚ) * bal

/-- Closed form of the cumulative deflator after m months. -/
def deflator_at (yearly_rates_list : List ℚ) : ℕ → ℚ
  | 0 => 1
  | m + 1 => deflator_at yearly_rates_list m * (1 + rateAt yearly_rates_list m / 12)

/-- Partial deflator product over k months starting at month index m. -/
def defl_prod (yearly_rates_list : List ℚ) (m : ℕ) : ℕ → ℚ
  | 0 => 1
  | k + 1 => defl_prod yearly_rates_list m k * (1 + rateAt yearly_rates_list (m + k) / 12)

lemma defl_prod_zero_left (yearly_rates_list : List ℚ) (k : ℕ) :
    defl_prod yearly_rates_list 0 k = deflator_at yearly_rates_list k := by
  induction k with
  | zero => rfl
  | succ k ih => rw [defl_prod, deflator_at, ih, Nat.zero_add]

lemma defl_prod_succ_left (yearly_rates_list : List ℚ) (m k : ℕ) :
    defl_prod yearly_rates_list m (k + 1)
      = (1 + rateAt yearly_rates_list m / 12) * defl_prod yearly_rates_list (m + 1) k := by
  induction k with
  | zero => rw [defl_prod, defl_prod, defl_prod, Nat.add_zero, one_mul, mul_one]
  | succ k ih =>
    rw [defl_prod, ih, defl_prod, mul_assoc]
    have harg : m + (k + 1) = m + 1 + k := by omega
    rw [harg]

lemma projection_loop_length (yearly_rates_list : List ℚ) (bal : ℚ) :
    ∀ (n m : ℕ) (acc defl : ℚ), (projection_loop yearly_rates_list bal n m acc defl).length = n := by
  intro n
  induction n with
  | zero => intro m acc defl; rfl
  | succ n ih =>
    intro m acc defl
    rw [projection_loop, List.length_cons, ih]

/-- Every entry of the projection loop in closed form: entry i (0-based) carries
month m+i+1, the accumulator after i+1 additions of the surplus, and that value
divided by the running deflator extended by i+1 monthly factors. -/
lemma projection_loop_entries (yearly_rates_list : List ℚ) (bal : ℚ) :
    ∀ (n m : ℕ) (acc defl : ℚ) (i : ℕ),
      (projection_loop yearly_rates_list bal n m acc defl)[i]?
        = if i < n then
            some ⟨m + i + 1, acc + ((i : ℚ) + 1) * bal,
              (acc + ((i : ℚ) + 1) * bal)
                / (defl * defl_prod yearly_rates_list m (i + 1))⟩
          else none := by
  intro n
  induction n with
  | zero =>
    intro m acc defl i
    rw [if_neg (Nat.not_lt_zero i)]
    rfl
  | succ n ih =>
    intro m acc defl i
    match i with
    | 0 =>
      rw [if_pos (Nat.zero_lt_succ n)]
      simp only [projection_loop, List.getElem?_cons_zero]
      rw [defl_prod_succ_left,
        show defl_prod yearly_rates_list (m + 1) 0 = 1 from rfl]
      norm_num
    | j + 1 =>
      simp only [projection_loop, List.getElem?_cons_succ]
      rw [ih (m + 1) (acc + bal) (defl * (1 + rateAt yearly_rates_list m / 12)) j]
      by_cases hj : j < n
      · rw [if_pos hj, if_pos (Nat.succ_lt_succ hj)]
        rw [defl_prod_succ_left yearly_rates_list m (j + 1)]
        simp only [Option.some.injEq, ProjPoint.mk.injEq]
        refine ⟨by omega, by push_cast; ring, by push_cast; ring_nf⟩
      · rw [if_neg hj, if_neg (fun hc => hj (Nat.lt_of_succ_lt_succ hc))]

/-- C5: for each allowed horizon the projection yields exactly that many points;
point i shows month i+1, the nominal wealth after i+1 surplus additions, and the
real purchasing power equal to that nominal wealth divided by the cumulative
deflator built from `rateAt` — the provided rate for the year index i div 12
when in range, 3% otherwise — for any rate list, in particular one shorter than
the horizon in years (no error path exists). -/
theorem wealth_projection_spec (yearly_rates_list : List ℚ) (current_savings bal : ℚ)
    (months_to_project : ℕ)
    (_hH : months_to_project ∈ [12, 36, 60, 120]) :
    (wealth_projection yearly_rates_list current_savings bal months_to_project).length
      = months_to_project ∧
    ∀ i : ℕ, i < months_to_project →
      (wealth_projection yearly_rates_list current_savings bal months_to_project)[i]?
        = some ⟨i + 1, nominal_at current_savings bal (i + 1),
            nominal_at current_savings bal (i + 1) / deflator_at yearly_rates_list (i + 1)⟩ := by
  constructor
  · exact projection_loop_length yearly_rates_list bal months_to_project 0 current_savings 1
  · intro i hi
    rw [wealth_projection,
      projection_loop_entries yearly_rates_list bal months_to_project 0 current_savings 1 i,
      if_pos hi]
    simp only [Option.some.injEq, ProjPoint.mk.injEq, nominal_at]
    refine ⟨by omega, by push_cast; ring, ?_⟩
    rw [one_mul, defl_prod_zero_left]
    push_cast
    ring_nf

/-- Witness for C5 at a concrete input: horizon 12 with an empty rate list (every
year falls back to 3%), savings 100 and surplus 10. -/
theorem wealth_projection_spec_witness :
    (wealth_projection [] 100 10 12).length = 12 ∧
    ∀ i : ℕ, i < 12 →
      (wealth_projection [] 100 10 12)[i]?
        = some ⟨i + 1, nominal_at 100 10 (i + 1),
            nominal_at 100 10 (i + 1) / deflator_at [] (i + 1)⟩ :=
  wealth_projection_spec [] 100 10 12 (by simp)

/-! ## Cross-device sync payload (src/app.py lines 290-364 and 419-444) -/

/-- The flat State-sheet payload, each field `none` when that column is absent
from the stored snapshot. The expense/deduction fields model the parsed
`json.loads` result of the serialized collections. -/
structure CloudState where
  expenses : Option (List LineItem)
  deductions : Option (List LineItem)
  basic_salary : Option ℚ
  allowances : Option ℚ
  variable_income : Option ℚ
  current_savings : Option ℚ
  epf_rate : Option ℤ
  month_select : Option String
  year_input : Option ℤ
  currency : Option String
deriving Repr, DecidableEq

/-- The startup initialization (src/app.py lines 339-368): with a cloud snapshot,
each absent field falls back to the `get_default_state` template (December /
current year / MYR for the period and currency); without one, everything is the
template. The widget-bound draft fields take their first-render values from the
loaded_* mirrors. -/
def init_from_cloud (cloud : Option CloudState) (current_year : ℤ) : AppState :=
  let defaults := get_default_state
  match cloud with
  | some cs =>
    { basic_salary := cs.basic_salary.getD defaults.basic_salary
      allowances := cs.allowances.getD defaults.allowances
      variable_income := cs.variable_income.getD defaults.variable_income
      current_savings := cs.current_savings.getD defaults.current_savings
      epf_rate := cs.epf_rate.getD defaults.epf_rate
      expenses := cs.expenses.getD defaults.expenses
      deductions_list := cs.deductions.getD defaults.deductions
      active_currency := cs.currency.getD "MYR"
      loaded_salary := cs.basic_salary.getD defaults.basic_salary
      loaded_allowances := cs.allowances.getD defaults.allowances
      loaded_var := cs.variable_income.getD defaults.variable_income
      loaded_savings := cs.current_savings.getD defaults.current_savings
      loaded_epf := cs.epf_rate.getD defaults.epf_rate
      loaded_month := cs.month_select.getD "December"
      loaded_year := cs.year_input.getD current_year
      last_viewed_month := cs.month_select.getD "December"
      last_viewed_year := cs.year_input.getD current_year }
  | none =>
    { basic_salary := defaults.basic_salary
      allowances := defaults.allowances
      variable_income := defaults.variable_income
      current_savings := defaults.current_savings
      epf_rate := defaults.epf_rate
      expenses := defaults.expenses
      deductions_list := defaults.deductions
      active_currency := "MYR"
      loaded_salary := defaults.basic_salary
      loaded_allowances := defaults.allowances
      loaded_var := defaults.variable_income
      loaded_savings := defaults.current_savings
      loaded_epf := defaults.epf_rate
      loaded_month := "December"
      loaded_year := current_year
      last_viewed_month := "December"
      last_viewed_year := current_year }

/-- The Pull button handler with a present snapshot (src/app.py lines 419-443):
absent fields fall back to 0.0 for the monetary fields, 11 for the EPF rate,
empty collections for expenses and deductions, December / current year / MYR for
the period and currency; every session field is overwritten. -/
def pull_from_cloud (cs : CloudState) (current_year : ℤ) : AppState :=
  { basic_salary := cs.basic_salary.getD 0
    allowances := cs.allowances.getD 0
    variable_income := cs.variable_income.getD 0
    current_savings := cs.current_savings.getD 0
    epf_rate := cs.epf_rate.getD 11
    expenses := cs.expenses.getD []
    deductions_list := cs.deductions.getD []
    active_currency := cs.currency.getD "MYR"
    loaded_salary := cs.basic_salary.getD 0
    loaded_allowances := cs.allowances.getD 0
    loaded_var := cs.variable_income.getD 0
    loaded_savings := cs.current_savings.getD 0
    loaded_epf := cs.epf_rate.getD 11
    loaded_month := cs.month_select.getD "December"
    loaded_year := cs.year_input.getD current_year
    last_viewed_month := cs.month_select.getD "December"
    last_viewed_year := cs.year_input.getD current_year }

/-- A snapshot with every field absent. -/
def empty_cloud : CloudState :=
  ⟨none, none, none, none, none, none, none, none, none, none⟩

/-- C7 counterexample: pulling a snapshot that lacks basic_salary and the expense
collection sets them to 0 and [], not to the documented defaults 6000 and the
six-row template — the Pull path does not fall back to the documented defaults. -/
theorem pull_fallback_not_documented_default :
    (pull_from_cloud empty_cloud 2025).basic_salary = 0 ∧
    get_default_state.basic_salary = 6000 ∧
    (pull_from_cloud empty_cloud 2025).basic_salary ≠ get_default_state.basic_salary ∧
    (pull_from_cloud empty_cloud 2025).expenses = [] ∧
    (pull_from_cloud empty_cloud 2025).expenses ≠ get_default_state.expenses := by
  refine ⟨rfl, rfl, ?_, rfl, ?_⟩ <;>
    simp [pull_from_cloud, empty_cloud, get_default_state, default_expenses]

/-- C7 amended: neither load path can raise on a partially-populated snapshot
(both are total, with a per-field fallback), but only the initialization path
falls back to the documented default template; the Pull handler falls back to
0.0 for each monetary field, 11 for the EPF rate and empty collections, with
December / the current year / MYR for the period and currency on both paths. -/
theorem cloud_load_field_fallbacks (cs : CloudState) (current_year : ℤ) :
    ((init_from_cloud (some cs) current_year).loaded_salary
        = cs.basic_salary.getD get_default_state.basic_salary ∧
      (init_from_cloud (some cs) current_year).loaded_allowances
        = cs.allowances.getD get_default_state.allowances ∧
      (init_from_cloud (some cs) current_year).loaded_var
        = cs.variable_income.getD get_default_state.variable_income ∧
      (init_from_cloud (some cs) current_year).loaded_savings
        = cs.current_savings.getD get_default_state.current_savings ∧
      (init_from_cloud (some cs) current_year).loaded_epf
        = cs.epf_rate.getD get_default_state.epf_rate ∧
      (init_from_cloud (some cs) current_year).expenses
        = cs.expenses.getD get_default_state.expenses ∧
      (init_from_cloud (some cs) current_year).deductions_list
        = cs.deductions.getD get_default_state.deductions ∧
      (init_from_cloud (some cs) current_year).loaded_month
        = cs.month_select.getD "December" ∧
      (init_from_cloud (some cs) current_year).loaded_year
        = cs.year_input.getD current_year ∧
      (init_from_cloud (some cs) current_year).active_currency
        = cs.currency.getD "MYR") ∧
    ((pull_from_cloud cs current_year).basic_salary = cs.basic_salary.getD 0 ∧
      (pull_from_cloud cs current_year).allowances = cs.allowances.getD 0 ∧
      (pull_from_cloud cs current_year).variable_income = cs.variable_income.getD 0 ∧
      (pull_from_cloud cs current_year).current_savings = cs.current_savings.getD 0 ∧
      (pull_from_cloud cs current_year).epf_rate = cs.epf_rate.getD 11 ∧
      (pull_from_cloud cs current_year).expenses = cs.expenses.getD [] ∧
      (pull_from_cloud cs current_year).deductions_list = cs.deductions.getD [] ∧
      (pull_from_cloud cs current_year).loaded_month = cs.month_select.getD "December" ∧
      (pull_from_cloud cs current_year).loaded_year = cs.year_input.getD current_year ∧
      (pull_from_cloud cs current_year).active_currency = cs.currency.getD "MYR") :=
  ⟨⟨rfl, rfl, rfl, rfl, rfl, rfl, rfl, rfl, rfl, rfl⟩,
   ⟨rfl, rfl, rfl, rfl, rfl, rfl, rfl, rfl, rfl, rfl⟩⟩

end FinDash
